import Mathlib

/-!
Shallow embedding of `src/provstore/document.py` (ProvStore client Document model).

The Python class `Document` is a mutable proxy over an API collaborator.  We embed it as a
Lean structure `Document` together with one Lean function per Python method.  Each method
returns an `Outcome`: the returned value (or the raised exception), the document object as
it stands when the method finishes (Python exceptions leave earlier field assignments in
place, so the post-state is returned even on error), and the list of calls made to the API
collaborator (used to state "no fetch happens" / "exactly one fetch happens" properties).

Python truthiness (`if self._name:`, `if document_id:`) is modelled by the `truthy*`
helpers: `None` is falsy, `False` is falsy, `0` is falsy, `""` is falsy, and `datetime`
objects and `ProvDocument` objects are always truthy.
-/

namespace Provstore

/-- Keyword properties (`**props`) forwarded verbatim to the API collaborator by
`Document.create`. -/
abbrev Props : Type := List (String × String)

/-- External collaborator `prov.model.ProvDocument` (out of scope of the repository): the
only behaviour the embedded code uses is `serialize()`, so it is modelled as a wrapper
around its serialized payload.  As a plain Python object it is always truthy. -/
structure ProvDocument where
  payload : String
deriving DecidableEq

/-- Embeds `prov_document.serialize()`. -/
def ProvDocument.serialize (p : ProvDocument) : String := p.payload

/-- External `datetime.datetime` value produced by `prov.model.parse_xsd_datetime`.
Modelled as a wrapper around the server-supplied date string; always truthy. -/
structure DateTime where
  raw : String
deriving DecidableEq

/-- External collaborator `prov.model.parse_xsd_datetime`, used by `read_meta`. -/
def parse_xsd_datetime (s : String) : DateTime := ⟨s⟩

/-- External collaborator `provstore.bundle_manager.BundleManager`, opaque to this spec
beyond being instantiated fresh (with the api session and the owning document) after every
metadata read and after a non-refresh create.  Modelled as a freshness marker. -/
inductive BundleManager where
  | fresh
deriving DecidableEq

/-- Metadata dictionary returned by `Api.get_document_meta`, with the keys `read_meta`
reads from it. -/
structure Meta where
  document_name : String
  public : Bool
  owner : String
  created_at : String
  views_count : Int
deriving DecidableEq

/-- One call made to the API collaborator, recorded in order of occurrence. -/
inductive ApiCall where
  | postDocument (payload : String) (format : Option String)
  | getDocumentProv (docId : Int)
  | getDocumentMeta (docId : Int)
  | deleteDocument (docId : Int)
  | addBundle (docId : Int) (payload : String) (ident : String)
deriving DecidableEq

/-- The API collaborator (`provstore.api.Api`), out of scope of the repository: an oracle
giving the outcome of each remote operation.  `Except.error ()` models an exception raised
by the collaborator, which `document.py` never catches.  `ref` models Python object
identity of the collaborator (`document.py` stores the object passed to `__init__` and
compares collaborators with `==`, which for these session objects is identity). -/
structure Api where
  ref : Nat
  base_url : String
  post_document : String → Option String → Props → Except Unit Int
  get_document_prov : Int → Except Unit ProvDocument
  get_document_meta : Int → Except Unit Meta
  delete_document : Int → Except Unit Unit
  add_bundle : Int → String → String → Except Unit Unit

/-- Exceptions that can escape a `Document` method: the three `DocumentException`
subclasses of `document.py`, plus `apiError` for an exception propagated unmodified from
the API collaborator. -/
inductive DocumentException where
  | abstractDocument
  | emptyDocument
  | immutableDocument
  | apiError
deriving DecidableEq

/-- Python truthiness of an optional string: `None` and `""` are falsy. -/
def truthyStr : Option String → Bool
  | none => false
  | some s => s != ""

/-- Python truthiness of an optional bool: `None` and `False` are falsy. -/
def truthyBool : Option Bool → Bool
  | none => false
  | some b => b

/-- Python truthiness of an optional int: `None` and `0` are falsy. -/
def truthyInt : Option Int → Bool
  | none => false
  | some v => v != 0

/-- Python truthiness of an optional plain object (no `__bool__`/`__len__`): only `None`
is falsy. -/
def truthyObj {α : Type} : Option α → Bool
  | none => false
  | some _ => true

/-- State of a `provstore.document.Document` instance: the fields assigned in
`Document.__init__` (lines 39-51 of `document.py`). -/
structure Document where
  _api : Api
  _id : Option Int
  _name : Option String
  _public : Option Bool
  _owner : Option String
  _created_at : Option DateTime
  _views : Option Int
  _bundles : Option BundleManager
  _prov : Option ProvDocument

/-- Embeds `Document.__init__(api)`: every field but the collaborator starts as `None`. -/
def Document.init (api : Api) : Document :=
  { _api := api, _id := none, _name := none, _public := none, _owner := none,
    _created_at := none, _views := none, _bundles := none, _prov := none }

/-- Result of running one method: the value returned (or exception raised), the document
state when the method finishes, and the API calls made, in order. -/
structure Outcome (α : Type) where
  val : Except DocumentException α
  doc : Document
  calls : List ApiCall

/-- Embeds the `id` property. -/
def Document.id (d : Document) : Option Int := d._id

/-- Embeds the `abstract` property: `self.id is None`. -/
def Document.abstract (d : Document) : Bool := d._id.isNone

/-- Embeds `Document.__eq__`: `self._api == other._api and self.id == other.id`.  Both
operands are documents here (the `isinstance` guard holds).  Collaborator equality is
object identity (`ref`); note that `Option.beq` makes `none == none` true, exactly as
Python `None == None`. -/
def Document.eq (d other : Document) : Bool :=
  (d._api.ref == other._api.ref) && (d.id == other.id)

/-- Embeds `Document.read_prov(document_id=None)` (lines 163-183): if `document_id` is
truthy it may only bind an abstract document (else `ImmutableDocumentException`); an
abstract document (id still `None`) raises `AbstractDocumentException`; otherwise the
provenance is fetched and cached. -/
def Document.read_prov (d0 : Document) (document_id : Option Int) : Outcome ProvDocument :=
  if truthyInt document_id && !d0.abstract then
    ⟨.error .immutableDocument, d0, []⟩
  else
    let d := if truthyInt document_id then { d0 with _id := document_id } else d0
    match d._id with
    | none => ⟨.error .abstractDocument, d, []⟩
    | some i =>
      match d._api.get_document_prov i with
      | .error _ => ⟨.error .apiError, d, [.getDocumentProv i]⟩
      | .ok p => ⟨.ok p, { d with _prov := some p }, [.getDocumentProv i]⟩

/-- Embeds `Document.read_meta(document_id=None)` (lines 185-214): same binding guard as
`read_prov`, then fetches the metadata dictionary, stores all five metadata fields
(`created_at` through `parse_xsd_datetime`) and reconstructs the bundle manager, and
returns self. -/
def Document.read_meta (d0 : Document) (document_id : Option Int) : Outcome Document :=
  if truthyInt document_id && !d0.abstract then
    ⟨.error .immutableDocument, d0, []⟩
  else
    let d := if truthyInt document_id then { d0 with _id := document_id } else d0
    match d._id with
    | none => ⟨.error .abstractDocument, d, []⟩
    | some i =>
      match d._api.get_document_meta i with
      | .error _ => ⟨.error .apiError, d, [.getDocumentMeta i]⟩
      | .ok m =>
        let d1 := { d with
          _name := some m.document_name,
          _public := some m.public,
          _owner := some m.owner,
          _created_at := some (parse_xsd_datetime m.created_at),
          _views := some m.views_count,
          _bundles := some BundleManager.fresh }
        ⟨.ok d1, d1, [.getDocumentMeta i]⟩

/-- Embeds `Document.read(document_id=None)` (lines 137-151): `read_prov(document_id)`
then `read_meta()`, returning self. -/
def Document.read (d : Document) (document_id : Option Int) : Outcome Document :=
  let r1 := d.read_prov document_id
  match r1.val with
  | .error e => ⟨.error e, r1.doc, r1.calls⟩
  | .ok _ =>
    let r2 := r1.doc.read_meta none
    ⟨r2.val, r2.doc, r1.calls ++ r2.calls⟩

/-- Embeds `Document.refresh()` (lines 153-161): `read()` with no identifier. -/
def Document.refresh (d : Document) : Outcome Document :=
  d.read none

/-- Serialized payload and format that `create` posts: a `ProvDocument` instance is
serialized and the format forced to `"json"`, a raw string is posted as-is with the
caller-supplied format. -/
inductive ProvInput where
  | doc (p : ProvDocument)
  | raw (s : String)
deriving DecidableEq

/-- Embeds `Document.create(prov_document, prov_format=None, refresh=False, **props)`
(lines 69-99): only an abstract document may be created (else
`ImmutableDocumentException`); a structured `ProvDocument` is cached as `_prov`, the
format is forced to `"json"` and the payload serialized; the payload is posted and the
returned id stored; then either a full refresh, or a fresh bundle manager.  Note that the
`_prov` assignment happens before the post, so a raising post leaves it in place. -/
def Document.create (d0 : Document) (prov_document : ProvInput) (prov_format : Option String)
    (props : Props) (refresh : Bool) : Outcome Document :=
  if !d0.abstract then
    ⟨.error .immutableDocument, d0, []⟩
  else
    let step : Document × Option String × String :=
      match prov_document with
      | .doc p => ({ d0 with _prov := some p }, some "json", p.serialize)
      | .raw s => (d0, prov_format, s)
    let d := step.1
    let fmt := step.2.1
    let payload := step.2.2
    match d._api.post_document payload fmt props with
    | .error _ => ⟨.error .apiError, d, [.postDocument payload fmt]⟩
    | .ok newId =>
      let d1 := { d with _id := some newId }
      if refresh then
        let r := d1.refresh
        ⟨r.val, r.doc, .postDocument payload fmt :: r.calls⟩
      else
        let d2 := { d1 with _bundles := some BundleManager.fresh }
        ⟨.ok d2, d2, [.postDocument payload fmt]⟩

/-- Embeds `Document.set(document_id)` (lines 103-113): only an abstract document may be
associated; no API call is made. -/
def Document.set (d : Document) (document_id : Int) : Outcome Document :=
  if !d.abstract then
    ⟨.error .immutableDocument, d, []⟩
  else
    let d1 := { d with _id := some document_id }
    ⟨.ok d1, d1, []⟩

/-- Embeds `Document.get(document_id)` (lines 115-134): only valid while abstract, then
`read(document_id)`. -/
def Document.get (d : Document) (document_id : Int) : Outcome Document :=
  if !d.abstract then
    ⟨.error .immutableDocument, d, []⟩
  else
    d.read (some document_id)

/-- Embeds `Document.add_bundle(prov_bundle, identifier)` (lines 216-232): abstract
documents (id `None`) raise `AbstractDocumentException`; otherwise the serialized bundle
is forwarded to the collaborator. -/
def Document.add_bundle (d : Document) (prov_bundle : ProvDocument) (identifier : String) :
    Outcome Unit :=
  match d._id with
  | none => ⟨.error .abstractDocument, d, []⟩
  | some i =>
    match d._api.add_bundle i prov_bundle.serialize identifier with
    | .error _ => ⟨.error .apiError, d, [.addBundle i prov_bundle.serialize identifier]⟩
    | .ok _ => ⟨.ok (), d, [.addBundle i prov_bundle.serialize identifier]⟩

/-- Embeds the `bundles` property (lines 234-243): raises on an abstract document,
otherwise returns the `_bundles` field as it stands (possibly still `None`). -/
def Document.bundles (d : Document) : Outcome (Option BundleManager) :=
  if d.abstract then
    ⟨.error .abstractDocument, d, []⟩
  else
    ⟨.ok d._bundles, d, []⟩

/-- Embeds `Document.delete()` (lines 245-258): abstract documents raise; otherwise the
deletion is delegated to the collaborator, the id (and only the id) is cleared, and
`True` is returned. -/
def Document.delete (d : Document) : Outcome Bool :=
  match d._id with
  | none => ⟨.error .abstractDocument, d, []⟩
  | some i =>
    match d._api.delete_document i with
    | .error _ => ⟨.error .apiError, d, [.deleteDocument i]⟩
    | .ok _ =>
      let d1 := { d with _id := none }
      ⟨.ok true, d1, [.deleteDocument i]⟩

/-- Embeds the `name` property (lines 274-284): a truthy cache is returned; otherwise a
bound document re-reads the metadata and returns the freshly assigned field; an abstract
document raises `EmptyDocumentException`. -/
def Document.name (d : Document) : Outcome (Option String) :=
  if truthyStr d._name then ⟨.ok d._name, d, []⟩
  else if !d.abstract then
    let r := d.read_meta none
    match r.val with
    | .error e => ⟨.error e, r.doc, r.calls⟩
    | .ok d1 => ⟨.ok d1._name, d1, r.calls⟩
  else ⟨.error .emptyDocument, d, []⟩

/-- Embeds the `public` property (lines 286-296); note `truthyBool`: a cached `False` is
falsy. -/
def Document.public (d : Document) : Outcome (Option Bool) :=
  if truthyBool d._public then ⟨.ok d._public, d, []⟩
  else if !d.abstract then
    let r := d.read_meta none
    match r.val with
    | .error e => ⟨.error e, r.doc, r.calls⟩
    | .ok d1 => ⟨.ok d1._public, d1, r.calls⟩
  else ⟨.error .emptyDocument, d, []⟩

/-- Embeds the `owner` property (lines 298-308). -/
def Document.owner (d : Document) : Outcome (Option String) :=
  if truthyStr d._owner then ⟨.ok d._owner, d, []⟩
  else if !d.abstract then
    let r := d.read_meta none
    match r.val with
    | .error e => ⟨.error e, r.doc, r.calls⟩
    | .ok d1 => ⟨.ok d1._owner, d1, r.calls⟩
  else ⟨.error .emptyDocument, d, []⟩

/-- Embeds the `created_at` property (lines 310-321); `datetime` objects are always
truthy. -/
def Document.created_at (d : Document) : Outcome (Option DateTime) :=
  if truthyObj d._created_at then ⟨.ok d._created_at, d, []⟩
  else if !d.abstract then
    let r := d.read_meta none
    match r.val with
    | .error e => ⟨.error e, r.doc, r.calls⟩
    | .ok d1 => ⟨.ok d1._created_at, d1, r.calls⟩
  else ⟨.error .emptyDocument, d, []⟩

/-- Embeds the `views` property (lines 323-333); note `truthyInt`: a cached `0` is
falsy. -/
def Document.views (d : Document) : Outcome (Option Int) :=
  if truthyInt d._views then ⟨.ok d._views, d, []⟩
  else if !d.abstract then
    let r := d.read_meta none
    match r.val with
    | .error e => ⟨.error e, r.doc, r.calls⟩
    | .ok d1 => ⟨.ok d1._views, d1, r.calls⟩
  else ⟨.error .emptyDocument, d, []⟩

/-- Python `s.split(sep)` for a one-character separator, modelled from the CPython
semantics used at line 345 of `document.py`: splitting never yields an empty list, and
adjacent separators yield empty pieces. -/
def splitCharAux (sep : Char) : List Char → List Char → List String
  | [], acc => [String.mk acc.reverse]
  | c :: cs, acc =>
    if c = sep then String.mk acc.reverse :: splitCharAux sep cs []
    else splitCharAux sep cs (c :: acc)

/-- Python `s.split(sep)` on a string, one-character separator. -/
def pySplit (s : String) (sep : Char) : List String :=
  splitCharAux sep s.data []

/-- Python `sep.join(parts)`. -/
def pyJoin (sep : String) : List String → String
  | [] => ""
  | [x] => x
  | x :: y :: xs => x ++ sep ++ pyJoin sep (y :: xs)

/-- Embeds the `url` property (lines 335-345): while bound,
`"/".join(base_url.split("/")[:-2]) + "/documents/" + id`; while abstract the Python
function falls off the end and returns `None`. -/
def Document.url (d : Document) : Option String :=
  match d._id with
  | none => none
  | some i =>
    some (pyJoin "/" ((pySplit d._api.base_url '/').dropLast.dropLast)
      ++ "/documents/" ++ toString i)

/-- Embeds the `prov` property (lines 347-357): a cached provenance object (always
truthy) is returned; otherwise a bound document fetches via `read_prov()`; an abstract
document raises `EmptyDocumentException`. -/
def Document.prov (d : Document) : Outcome (Option ProvDocument) :=
  if truthyObj d._prov then ⟨.ok d._prov, d, []⟩
  else if !d.abstract then
    let r := d.read_prov none
    match r.val with
    | .error e => ⟨.error e, r.doc, r.calls⟩
    | .ok p => ⟨.ok (some p), r.doc, r.calls⟩
  else ⟨.error .emptyDocument, d, []⟩

/-- Concrete metadata oracle with truthy values, used by concrete instances below. -/
def metaW : Meta :=
  { document_name := "doc", public := true, owner := "alice",
    created_at := "2014-01-01T00:00:00", views_count := 5 }

/-- Concrete API collaborator on which every operation succeeds. -/
def apiW : Api :=
  { ref := 0,
    base_url := "https://openprovenance.org/store/api/v0",
    post_document := fun _ _ _ => .ok 148,
    get_document_prov := fun _ => .ok ⟨"provdata"⟩,
    get_document_meta := fun _ => .ok metaW,
    delete_document := fun _ => .ok (),
    add_bundle := fun _ _ _ => .ok () }

/-- Concrete API collaborator whose `post_document` raises. -/
def apiFailPost : Api :=
  { apiW with post_document := fun _ _ _ => .error () }

/-- Concrete metadata dictionary whose values are all Python-falsy where possible: empty
name, private visibility, zero views. -/
def metaFalsy : Meta :=
  { document_name := "", public := false, owner := "o",
    created_at := "2014-01-01T00:00:00", views_count := 0 }

/-- Concrete API collaborator serving the falsy metadata. -/
def apiFalsy : Api :=
  { apiW with get_document_meta := fun _ => .ok metaFalsy }

/-- A document bound to id 1 whose caches were filled by a successful metadata read. -/
def docBound1 : Document :=
  ((((Document.init apiW).set 1).doc).read_meta none).doc

/-- An abstract document carrying a cached provenance object: produced through the public
interface by a `create` whose post raised after the content was already cached. -/
def docStaleProv : Document :=
  (((Document.init apiFailPost).create (ProvInput.doc ⟨"local"⟩) none [] false)).doc

/-- A document bound to id 7 whose caches were filled by a successful metadata read that
returned the falsy metadata. -/
def docFalsy : Document :=
  ((((Document.init apiFalsy).set 7).doc).read_meta none).doc

/-- State expected after the witness `create` below: content cached, id 148 assigned,
fresh bundle manager. -/
def docCreated : Document :=
  { Document.init apiW with
      _prov := some ⟨"payload"⟩, _id := some 148, _bundles := some BundleManager.fresh }

/-- C1 counterexample: `delete()` does not discard cached fields.  A bound document whose
name cache was filled by a metadata read still returns that name after `delete()`, while
a freshly constructed abstract document raises the empty-document error, so the
post-delete handle does not behave as a freshly constructed abstract handle. -/
theorem c1_counterexample :
    ((docBound1.delete).doc.name).val = Except.ok (some "doc") ∧
    ((Document.init apiW).name).val = Except.error DocumentException.emptyDocument :=
  ⟨rfl, rfl⟩

/-- C1 (amended): on a bound handle, `delete()` delegates deletion to the API
collaborator, clears the identifier, and returns true, but retains every cached field;
a subsequent `name` access returns the stale cache when it is truthy and only raises the
empty-document error (as a fresh handle would) when the cache is unset or falsy, and a
truthy cached provenance object is likewise still returned. -/
theorem c1_delete_keeps_caches (d : Document) (i : Int) (hid : d._id = some i)
    (hok : d._api.delete_document i = Except.ok ()) :
    (d.delete).val = Except.ok true ∧
    (d.delete).calls = [ApiCall.deleteDocument i] ∧
    (d.delete).doc = { d with _id := none } ∧
    (truthyStr d._name = true →
      Document.name { d with _id := none } = ⟨Except.ok d._name, { d with _id := none }, []⟩) ∧
    (truthyStr d._name = false →
      Document.name { d with _id := none } =
        ⟨Except.error DocumentException.emptyDocument, { d with _id := none }, []⟩) ∧
    (truthyObj d._prov = true →
      Document.prov { d with _id := none } = ⟨Except.ok d._prov, { d with _id := none }, []⟩) := by
  have hdel : d.delete = ⟨Except.ok true, { d with _id := none }, [ApiCall.deleteDocument i]⟩ := by
    simp [Document.delete, hid, hok]
  refine ⟨by simp [hdel], by simp [hdel], by simp [hdel], ?_, ?_, ?_⟩
  · intro h
    simp [Document.name, h]
  · intro h
    simp [Document.name, h, Document.abstract]
  · intro h
    simp [Document.prov, h]

/-- C1 witness: the amended theorem applied to the concrete bound document. -/
theorem c1_delete_keeps_caches_witness :
    docBound1._id = some 1 ∧
    apiW.delete_document 1 = Except.ok () ∧
    (docBound1.delete).val = Except.ok true :=
  ⟨rfl, rfl, (c1_delete_keeps_caches docBound1 1 rfl rfl).1⟩

/-- C2: the code at the failing input.  After a successful metadata fetch that stored
`public = False`, `views = 0` and an empty name, each access of `public`, `views` or
`name` issues another metadata fetch (the falsy cache is treated as "not yet loaded") and
silently returns the falsy value instead of surfacing an empty condition. -/
theorem c2_falsy_refetch :
    docFalsy._public = some false ∧
    docFalsy._views = some 0 ∧
    docFalsy._name = some "" ∧
    (docFalsy.public).calls = [ApiCall.getDocumentMeta 7] ∧
    (docFalsy.public).val = Except.ok (some false) ∧
    (docFalsy.views).calls = [ApiCall.getDocumentMeta 7] ∧
    (docFalsy.views).val = Except.ok (some 0) ∧
    (docFalsy.name).calls = [ApiCall.getDocumentMeta 7] ∧
    (docFalsy.name).val = Except.ok (some "") :=
  ⟨rfl, rfl, rfl, rfl, rfl, rfl, rfl, rfl, rfl⟩

/-- C3 counterexample: an abstract handle (identifier unset) reached by deleting a
document with populated caches does not raise the empty-handle error on `name`: the
stale cached name is returned. -/
theorem c3_counterexample :
    ((docBound1.delete).doc).abstract = true ∧
    (((docBound1.delete).doc).name).val = Except.ok (some "doc") :=
  ⟨rfl, rfl⟩

/-- C3 (amended): on an abstract handle none of whose cached fields is truthy (in
particular on a freshly constructed handle), every accessor (`name`, `public`, `owner`,
`created_at`, `views`, `prov`) raises the empty-document error and each of `add_bundle`,
`delete` and `bundles` raises the abstract-document error; none of them makes an API
call or changes the handle. -/
theorem c3_abstract_fresh_errors (d : Document) (hid : d._id = none)
    (hn : truthyStr d._name = false) (hp : truthyBool d._public = false)
    (ho : truthyStr d._owner = false) (hc : truthyObj d._created_at = false)
    (hv : truthyInt d._views = false) (hpr : truthyObj d._prov = false)
    (pb : ProvDocument) (ident : String) :
    d.name = ⟨Except.error DocumentException.emptyDocument, d, []⟩ ∧
    d.public = ⟨Except.error DocumentException.emptyDocument, d, []⟩ ∧
    d.owner = ⟨Except.error DocumentException.emptyDocument, d, []⟩ ∧
    d.created_at = ⟨Except.error DocumentException.emptyDocument, d, []⟩ ∧
    d.views = ⟨Except.error DocumentException.emptyDocument, d, []⟩ ∧
    d.prov = ⟨Except.error DocumentException.emptyDocument, d, []⟩ ∧
    d.add_bundle pb ident = ⟨Except.error DocumentException.abstractDocument, d, []⟩ ∧
    d.delete = ⟨Except.error DocumentException.abstractDocument, d, []⟩ ∧
    d.bundles = ⟨Except.error DocumentException.abstractDocument, d, []⟩ := by
  refine ⟨?_, ?_, ?_, ?_, ?_, ?_, ?_, ?_, ?_⟩
  · simp [Document.name, hn, Document.abstract, hid]
  · simp [Document.public, hp, Document.abstract, hid]
  · simp [Document.owner, ho, Document.abstract, hid]
  · simp [Document.created_at, hc, Document.abstract, hid]
  · simp [Document.views, hv, Document.abstract, hid]
  · simp [Document.prov, hpr, Document.abstract, hid]
  · simp [Document.add_bundle, hid]
  · simp [Document.delete, hid]
  · simp [Document.bundles, Document.abstract, hid]

/-- C3 witness: the amended theorem applied to a freshly constructed handle. -/
theorem c3_abstract_fresh_errors_witness :
    (Document.init apiW)._id = none ∧
    (Document.init apiW).name =
      ⟨Except.error DocumentException.emptyDocument, Document.init apiW, []⟩ :=
  ⟨rfl, (c3_abstract_fresh_errors (Document.init apiW) rfl rfl rfl rfl rfl rfl rfl
    ⟨"b"⟩ "b1").1⟩

/-- C4: on a bound handle, `create` raises the immutable-document error, and so do
`set`, `get` and `read` with a truthy identifier argument (the identifier-zero case is
settled separately), each leaving the handle unchanged and making no API call. -/
theorem c4_bound_rebind_immutable (d : Document) (i : Int) (hid : d._id = some i)
    (pd : ProvInput) (fmt : Option String) (props : Props) (b : Bool)
    (v : Int) (hv : v ≠ 0) :
    d.create pd fmt props b = ⟨Except.error DocumentException.immutableDocument, d, []⟩ ∧
    d.set v = ⟨Except.error DocumentException.immutableDocument, d, []⟩ ∧
    d.get v = ⟨Except.error DocumentException.immutableDocument, d, []⟩ ∧
    d.read (some v) = ⟨Except.error DocumentException.immutableDocument, d, []⟩ := by
  have habs : d.abstract = false := by simp [Document.abstract, hid]
  refine ⟨?_, ?_, ?_, ?_⟩
  · simp [Document.create, habs]
  · simp [Document.set, habs]
  · simp [Document.get, habs]
  · simp [Document.read, Document.read_prov, habs, truthyInt, hv]

/-- C4 witness: the theorem applied to a concrete bound document and identifier 3. -/
theorem c4_bound_rebind_immutable_witness :
    (((Document.init apiW).set 7).doc)._id = some 7 ∧
    (3 : Int) ≠ 0 ∧
    (((Document.init apiW).set 7).doc).create (ProvInput.raw "p") none [] false =
      ⟨Except.error DocumentException.immutableDocument, ((Document.init apiW).set 7).doc, []⟩ :=
  ⟨rfl, by decide,
    (c4_bound_rebind_immutable (((Document.init apiW).set 7).doc) 7 rfl
      (ProvInput.raw "p") none [] false 3 (by decide)).1⟩

/-- C5: on an abstract handle, `create` with a structured `ProvDocument` and
`refresh = false` serializes the object, posts it with the default `"json"` format,
stores the identifier returned by the collaborator (the handle becomes bound), installs a
fresh bundle manager, and a subsequent `prov` access returns the originally supplied
object with no API call. -/
theorem c5_create_caches_content (d : Document) (hid : d._id = none)
    (p : ProvDocument) (fmt : Option String) (props : Props) (n : Int)
    (hpost : d._api.post_document p.serialize (some "json") props = Except.ok n) :
    d.create (ProvInput.doc p) fmt props false =
      ⟨Except.ok { d with _prov := some p, _id := some n, _bundles := some BundleManager.fresh },
        { d with _prov := some p, _id := some n, _bundles := some BundleManager.fresh },
        [ApiCall.postDocument p.serialize (some "json")]⟩ ∧
    Document.bundles
        { d with _prov := some p, _id := some n, _bundles := some BundleManager.fresh } =
      ⟨Except.ok (some BundleManager.fresh),
        { d with _prov := some p, _id := some n, _bundles := some BundleManager.fresh }, []⟩ ∧
    Document.prov
        { d with _prov := some p, _id := some n, _bundles := some BundleManager.fresh } =
      ⟨Except.ok (some p),
        { d with _prov := some p, _id := some n, _bundles := some BundleManager.fresh }, []⟩ := by
  refine ⟨?_, ?_, ?_⟩
  · simp [Document.create, Document.abstract, hid, hpost]
  · simp [Document.bundles, Document.abstract]
  · simp [Document.prov, truthyObj]

/-- C5 witness: the theorem applied to a fresh handle and the always-succeeding
collaborator, which assigns id 148. -/
theorem c5_create_caches_content_witness :
    (Document.init apiW)._id = none ∧
    apiW.post_document (ProvDocument.serialize ⟨"payload"⟩) (some "json") [] = Except.ok 148 ∧
    (Document.init apiW).create (ProvInput.doc ⟨"payload"⟩) none [] false =
      ⟨Except.ok docCreated, docCreated,
        [ApiCall.postDocument (ProvDocument.serialize ⟨"payload"⟩) (some "json")]⟩ :=
  ⟨rfl, rfl, (c5_create_caches_content (Document.init apiW) rfl ⟨"payload"⟩ none [] 148 rfl).1⟩

/-- C6 counterexample: an abstract handle that already carries cached content (produced
through the public interface by a `create` whose post raised) violates the claim: after
`set 7`, the first `prov` access makes no API call at all and returns the stale local
object rather than fetching. -/
theorem c6_counterexample :
    docStaleProv._id = none ∧
    (((docStaleProv.set 7).doc).prov).calls = [] ∧
    (((docStaleProv.set 7).doc).prov).val = Except.ok (some ⟨"local"⟩) :=
  ⟨rfl, rfl, rfl⟩

/-- C6 (amended): on an abstract handle with no cached content, after `set 7` the first
`prov` access makes exactly one content fetch and caches the result, and a second `prov`
access returns the cached value with no further API call. -/
theorem c6_assoc_content_lazy (d : Document) (hid : d._id = none) (hprov : d._prov = none)
    (p : ProvDocument) (hget : d._api.get_document_prov 7 = Except.ok p) :
    d.set 7 = ⟨Except.ok { d with _id := some 7 }, { d with _id := some 7 }, []⟩ ∧
    Document.prov { d with _id := some 7 } =
      ⟨Except.ok (some p), { d with _id := some 7, _prov := some p },
        [ApiCall.getDocumentProv 7]⟩ ∧
    Document.prov { d with _id := some 7, _prov := some p } =
      ⟨Except.ok (some p), { d with _id := some 7, _prov := some p }, []⟩ := by
  refine ⟨?_, ?_, ?_⟩
  · simp [Document.set, Document.abstract, hid]
  · simp [Document.prov, Document.read_prov, truthyObj, truthyInt, hprov, hget,
      Document.abstract]
  · simp [Document.prov, truthyObj]

/-- C6 witness: the amended theorem applied to a fresh handle over the always-succeeding
collaborator, whose content fetch returns the `"provdata"` object. -/
theorem c6_assoc_content_lazy_witness :
    (Document.init apiW)._id = none ∧
    (Document.init apiW)._prov = none ∧
    apiW.get_document_prov 7 = Except.ok ⟨"provdata"⟩ ∧
    Document.prov { Document.init apiW with _id := some 7 } =
      ⟨Except.ok (some ⟨"provdata"⟩),
        { Document.init apiW with _id := some 7, _prov := some ⟨"provdata"⟩ },
        [ApiCall.getDocumentProv 7]⟩ :=
  ⟨rfl, rfl, rfl,
    (c6_assoc_content_lazy (Document.init apiW) rfl rfl ⟨"provdata"⟩ rfl).2.1⟩

/-- C7 counterexample: two abstract handles sharing the collaborator compare equal even
though they are distinct instances (here they even differ in a cached field), because
`None == None` is true in `__eq__`; this refutes "two distinct abstract handles are never
equal to each other". -/
theorem c7_counterexample :
    Document.eq (Document.init apiW) { Document.init apiW with _name := some "x" } = true :=
  rfl

/-- C7 (amended): `__eq__` holds iff the two handles share the API collaborator and their
identifier fields are equal as optional values, where two unset identifiers count as
equal; hence bound handles with the same collaborator and identifier compare equal,
handles with differing identifiers compare unequal, and two abstract handles with the
same collaborator also compare equal. -/
theorem c7_eq_characterization (d other : Document) :
    d.eq other = true ↔ (d._api.ref = other._api.ref ∧ d._id = other._id) := by
  simp [Document.eq, Document.id]

/-- C7 witness: the characterization applied to two concrete bound handles with the same
collaborator and identifier. -/
theorem c7_eq_characterization_witness :
    Document.eq { Document.init apiW with _id := some 9 }
      { Document.init apiW with _id := some 9, _name := some "n" } = true :=
  (c7_eq_characterization { Document.init apiW with _id := some 9 }
    { Document.init apiW with _id := some 9, _name := some "n" }).mpr ⟨rfl, rfl⟩

/-- C8: on a handle bound to identifier `i` whose collaborator base address is
`https://openprovenance.org/store/api/v0`, `url` drops the trailing two path segments and
appends `/documents/` plus the identifier; on an abstract handle `url` is `none` and no
error is raised. -/
theorem c8_url :
    (∀ (d : Document) (i : Int),
      d._api.base_url = "https://openprovenance.org/store/api/v0" →
      d._id = some i →
      d.url = some ("https://openprovenance.org/store/documents/" ++ toString i)) ∧
    (∀ d : Document, d._id = none → d.url = none) := by
  constructor
  · intro d i hbase hid
    simp [Document.url, hid, hbase]
    rfl
  · intro d hid
    simp [Document.url, hid]

/-- C8 witness: the theorem applied at identifier 42, and to a fresh abstract handle. -/
theorem c8_url_witness :
    Document.url { Document.init apiW with _id := some 42 } =
      some "https://openprovenance.org/store/documents/42" ∧
    Document.url (Document.init apiW) = none :=
  ⟨c8_url.1 { Document.init apiW with _id := some 42 } 42 rfl rfl,
    c8_url.2 (Document.init apiW) rfl⟩

/-- C9: on an abstract handle, `create` with a structured `ProvDocument` whose post
raises propagates the collaborator error and leaves the handle abstract, but the supplied
object has already been cached as `_prov`, so a subsequent `prov` access returns it with
no API call instead of raising the empty-document error. -/
theorem c9_create_post_failure (d : Document) (hid : d._id = none)
    (p : ProvDocument) (fmt : Option String) (props : Props) (b : Bool)
    (hpost : d._api.post_document p.serialize (some "json") props = Except.error ()) :
    d.create (ProvInput.doc p) fmt props b =
      ⟨Except.error DocumentException.apiError, { d with _prov := some p },
        [ApiCall.postDocument p.serialize (some "json")]⟩ ∧
    ({ d with _prov := some p } : Document)._id = none ∧
    Document.prov { d with _prov := some p } =
      ⟨Except.ok (some p), { d with _prov := some p }, []⟩ := by
  refine ⟨?_, ?_, ?_⟩
  · simp [Document.create, Document.abstract, hid, hpost]
  · simp [hid]
  · simp [Document.prov, truthyObj]

/-- C9 witness: the theorem applied to a fresh handle over the failing-post
collaborator. -/
theorem c9_create_post_failure_witness :
    (Document.init apiFailPost)._id = none ∧
    apiFailPost.post_document (ProvDocument.serialize ⟨"p"⟩) (some "json") [] =
      Except.error () ∧
    (Document.init apiFailPost).create (ProvInput.doc ⟨"p"⟩) none [] false =
      ⟨Except.error DocumentException.apiError,
        { Document.init apiFailPost with _prov := some ⟨"p"⟩ },
        [ApiCall.postDocument (ProvDocument.serialize ⟨"p"⟩) (some "json")]⟩ :=
  ⟨rfl, rfl, (c9_create_post_failure (Document.init apiFailPost) rfl ⟨"p"⟩ none [] false rfl).1⟩

/-- C10: `read_prov`, `read_meta` and `read` called with identifier 0 treat the argument
as absent (the binding branch tests truthiness): on an abstract handle they raise the
abstract-document error without binding 0 and without any call or mutation, and on a
bound handle they do not raise the immutable-document error but re-read the currently
bound identifier. -/
theorem c10_zero_id_absent
    (a : Document) (ha : a._id = none)
    (d : Document) (i : Int) (hd : d._id = some i)
    (p : ProvDocument) (hgp : d._api.get_document_prov i = Except.ok p)
    (m : Meta) (hgm : d._api.get_document_meta i = Except.ok m) :
    a.read_prov (some 0) = ⟨Except.error DocumentException.abstractDocument, a, []⟩ ∧
    a.read_meta (some 0) = ⟨Except.error DocumentException.abstractDocument, a, []⟩ ∧
    a.read (some 0) = ⟨Except.error DocumentException.abstractDocument, a, []⟩ ∧
    d.read_prov (some 0) =
      ⟨Except.ok p, { d with _prov := some p }, [ApiCall.getDocumentProv i]⟩ ∧
    (d.read_meta (some 0)).val = Except.ok ((d.read_meta (some 0)).doc) ∧
    (d.read_meta (some 0)).calls = [ApiCall.getDocumentMeta i] ∧
    (d.read (some 0)).calls = [ApiCall.getDocumentProv i, ApiCall.getDocumentMeta i] ∧
    ((d.read (some 0)).doc)._id = some i := by
  have hz : truthyInt (some 0) = false := by simp [truthyInt]
  refine ⟨?_, ?_, ?_, ?_, ?_, ?_, ?_, ?_⟩
  · simp [Document.read_prov, hz, ha]
  · simp [Document.read_meta, hz, ha]
  · simp [Document.read, Document.read_prov, hz, ha]
  · simp [Document.read_prov, hz, Document.abstract, hd, hgp]
  · simp [Document.read_meta, hz, truthyInt, Document.abstract, hd, hgm]
  · simp [Document.read_meta, hz, truthyInt, Document.abstract, hd, hgm]
  · simp [Document.read, Document.read_prov, Document.read_meta, hz, truthyInt,
      Document.abstract, hd, hgp, hgm]
  · simp [Document.read, Document.read_prov, Document.read_meta, hz, truthyInt,
      Document.abstract, hd, hgp, hgm]

/-- C10 witness: the theorem applied to a fresh abstract handle and a concrete handle
bound to id 5 over the always-succeeding collaborator. -/
theorem c10_zero_id_absent_witness :
    (Document.init apiW)._id = none ∧
    ({ Document.init apiW with _id := some 5 } : Document)._id = some 5 ∧
    (Document.init apiW).read_prov (some 0) =
      ⟨Except.error DocumentException.abstractDocument, Document.init apiW, []⟩ :=
  ⟨rfl, rfl,
    (c10_zero_id_absent (Document.init apiW) rfl { Document.init apiW with _id := some 5 } 5 rfl
      ⟨"provdata"⟩ rfl metaW rfl).1⟩

end Provstore
